import Mathlib

/-!
Verification of the tensorlake examples repository against its specification.

The repository's five applications exercise a durable-execution platform
(map fan-out, incremental reduce, futures with wait policies, retrying
invoker).  The platform itself is not part of the repository sources, so its
primitives are modelled from the specification (each such definition says so
in its doc comment); the business-level functions that do appear in the
sources (`merge_counts`, `count_words`, `broadcast_event`'s aggregation,
`parse_content`, `enrich`, `summarize`, `discover_template_files`,
`fetch_file`, `deploy_template`) are embedded from the code.  External
collaborators (HTTP fetches, the GitHub API, SDK calls) enter as explicit
outcome parameters, as the specification treats them as opaque.
-/

namespace Examples

/-- Modelled from the spec: the Reduce Folder of the execution platform
(`merge_fn.reduce(results, initial)`), which is not part of the repository
sources.  Spec 4.5: applies the merge function sequentially over the mapped
results in original input order, starting from `initial`; each step's output
becomes the next step's accumulator. -/
def reduceFold (merge : γ → β → γ) (results : List β) (init : γ) : γ :=
  results.foldl merge init

/-- Modelled from the spec: the Fan-Out Map Executor (`definition.map(inputs)`),
which is not part of the repository sources.  Spec 4.4: one execution is
started per input, completions arrive in an arbitrary order (`order` is the
simulated completion order, a permutation of the input indices), the executor
buffers completions keyed by original index and reassembles by index before
returning.  A slot is `none` only if its index never completed, which the
permutation hypothesis rules out. -/
def mapExec (f : α → β) (inputs : List α) (order : List Nat) : List (Option β) :=
  let buf := order.filterMap (fun j => (inputs[j]?).map (fun x => (j, f x)))
  (List.range inputs.length).map (fun i => buf.lookup i)

theorem lookup_buf (f : α → β) (inputs : List α) (order : List Nat) :
    ∀ (i : Nat) (hi : i < inputs.length), i ∈ order →
      (order.filterMap (fun j => (inputs[j]?).map (fun x => (j, f x)))).lookup i
        = some (f inputs[i]) := by
  induction order with
  | nil => intro i hi hmem; simp at hmem
  | cons o os ih =>
    intro i hi hmem
    by_cases hio : i = o
    · subst hio
      have hx : inputs[i]? = some inputs[i] := List.getElem?_eq_getElem hi
      simp [List.filterMap_cons, hx, List.lookup]
    · have hmem' : i ∈ os := by
        rcases List.mem_cons.mp hmem with h | h
        · exact absurd h hio
        · exact h
      have hbeq : (i == o) = false := beq_eq_false_iff_ne.mpr hio
      cases hx : inputs[o]? with
      | none => simpa [List.filterMap_cons, hx] using ih i hi hmem'
      | some x => simpa [List.filterMap_cons, hx, List.lookup, hbeq] using ih i hi hmem'

theorem mapExec_perm (f : α → β) (inputs : List α) (order : List Nat)
    (h : order.Perm (List.range inputs.length)) :
    mapExec f inputs order = inputs.map (fun x => some (f x)) := by
  apply List.ext_getElem?
  intro i
  by_cases hi : i < inputs.length
  · have hmem : i ∈ order := h.mem_iff.2 (List.mem_range.2 hi)
    have hlen : i < (List.range inputs.length).length := by simpa using hi
    simp only [mapExec, List.getElem?_map, List.getElem?_range, hi, if_pos]
    rw [List.getElem?_eq_getElem hi]
    simp only [Option.map_some']
    rw [lookup_buf f inputs order i hi hmem]
  · have h1 : (List.range inputs.length).length ≤ i := by simpa using Nat.le_of_not_lt hi
    have h2 : inputs.length ≤ i := Nat.le_of_not_lt hi
    rw [mapExec]
    rw [List.getElem?_eq_none (by simpa using h1), List.getElem?_eq_none (by simpa using h2)]

theorem mapExec_length (f : α → β) (inputs : List α) (order : List Nat) :
    (mapExec f inputs order).length = inputs.length := by
  simp [mapExec]

/-- C1: for every ordered input list of length N and every simulated completion
order, `map(definition, inputs)` returns a list of length N whose i-th slot is
the result of invoking the definition on `inputs[i]`; each slot holds a tagged
result (success value or error value), never omitted, independently of the
order in which the underlying executions complete. -/
theorem C1_map_ordered {α E V : Type} (f : α → Except E V) (inputs : List α)
    (order : List Nat) (h : order.Perm (List.range inputs.length)) :
    (mapExec f inputs order).length = inputs.length ∧
    mapExec f inputs order = inputs.map (fun x => some (f x)) ∧
    ∀ slot ∈ mapExec f inputs order,
      ∃ r, slot = some r ∧ ((∃ v, r = .ok v) ∨ (∃ e, r = .error e)) := by
  refine ⟨mapExec_length f inputs order, mapExec_perm f inputs order h, ?_⟩
  intro slot hslot
  rw [mapExec_perm f inputs order h] at hslot
  rcases List.mem_map.mp hslot with ⟨x, _, rfl⟩
  refine ⟨f x, rfl, ?_⟩
  cases hfx : f x with
  | ok v => exact Or.inl ⟨v, rfl⟩
  | error e => exact Or.inr ⟨e, rfl⟩

theorem C1_map_ordered_witness :
    mapExec (fun n => (Except.ok n : Except String Nat)) [10, 20] [1, 0]
      = [some (Except.ok 10), some (Except.ok 20)] :=
  (C1_map_ordered (fun n => (Except.ok n : Except String Nat)) [10, 20] [1, 0]
    (by decide)).2.1

/-- C4: `reduce(merge, results, initial)` is deterministic: running it twice
over the same ordered results yields identical final accumulators, and the
accumulator is independent of the wall-clock completion order that produced
the mapped results (any two completion-order permutations give the same
fold). -/
theorem C4_reduce_deterministic {α β γ : Type} (merge : γ → Option β → γ) (init : γ)
    (rs : List (Option β)) (f : α → β) (inputs : List α) (o1 o2 : List Nat)
    (h1 : o1.Perm (List.range inputs.length)) (h2 : o2.Perm (List.range inputs.length)) :
    reduceFold merge rs init = reduceFold merge rs init ∧
    reduceFold merge (mapExec f inputs o1) init = reduceFold merge (mapExec f inputs o2) init := by
  refine ⟨rfl, ?_⟩
  rw [mapExec_perm f inputs o1 h1, mapExec_perm f inputs o2 h2]

theorem C4_reduce_deterministic_witness :
    reduceFold (fun acc s => acc + (s.getD 0)) (mapExec (fun n => n * n) [1, 2, 3] [2, 0, 1]) 0
      = reduceFold (fun acc s => acc + (s.getD 0)) (mapExec (fun n => n * n) [1, 2, 3] [1, 2, 0]) 0 :=
  (C4_reduce_deterministic (fun acc s => acc + (s.getD 0)) 0 []
    (fun n => n * n) [1, 2, 3] [2, 0, 1] [1, 2, 0] (by decide) (by decide)).2

/-- Result dict of `count_words` (src/web-scraper/main.py:49-97).  The success
and failure branches of the source return dicts with different keys, so the
keys present in only one branch are `Option` fields (`top_words` is part of
the opaque word analytics and is summarised by `unique_words` here). -/
structure SiteResult where
  url : String
  word_count : Nat
  unique_words : Option Nat
  success : Bool
  error : Option String
  deriving DecidableEq

/-- The word statistics the success branch of `count_words` computes from the
fetched html (regex business logic, out of scope per spec section 1). -/
structure CountPayload where
  word_count : Nat
  unique_words : Nat
  deriving DecidableEq

/-- `count_words` (src/web-scraper/main.py:49-97).  `fetch` is the outcome of
`urllib.request.urlopen` on the url (`.error e` models a raised exception with
message `e`); `payload` is the opaque word-analytics computation on the body.
On success the source returns `{url, word_count, unique_words, top_words,
success: True}`; on any exception `{url, word_count: 0, success: False,
error: str(e)}`. -/
def count_words (payload : String → CountPayload) (url : String)
    (fetch : Except String String) : SiteResult :=
  match fetch with
  | .ok html =>
    { url := url, word_count := (payload html).word_count,
      unique_words := some (payload html).unique_words, success := true, error := none }
  | .error e =>
    { url := url, word_count := 0, unique_words := none, success := false, error := some e }

/-- Accumulator dict of `merge_counts` (src/web-scraper/main.py:39-45). -/
structure ScrapeAcc where
  total_words : Nat
  sites_processed : Nat
  successful : Nat
  failed : Nat
  results : List SiteResult
  deriving DecidableEq

/-- `merge_counts` (src/web-scraper/main.py:101-116). -/
def merge_counts (accumulated : ScrapeAcc) (result : SiteResult) : ScrapeAcc :=
  let new_results := accumulated.results ++ [result]
  { total_words := accumulated.total_words + result.word_count,
    sites_processed := accumulated.sites_processed + 1,
    successful := accumulated.successful + (if result.success then 1 else 0),
    failed := accumulated.failed + (if result.success then 0 else 1),
    results := new_results }

/-- The initial accumulator passed to the reduce in `scrape_sites`
(src/web-scraper/main.py:39-45). -/
def scrapeInit : ScrapeAcc :=
  { total_words := 0, sites_processed := 0, successful := 0, failed := 0, results := [] }

/-- `scrape_sites` (src/web-scraper/main.py:25-45): `count_words.map(urls)`
then `merge_counts.reduce(word_counts, initial)`.  By `mapExec_perm` the
platform map is order-stable and equal to the elementwise map, so it is
embedded as `List.map`; `fetch` gives each url's fetch outcome. -/
def scrape_sites (payload : String → CountPayload) (fetch : String → Except String String)
    (urls : List String) : ScrapeAcc :=
  let word_counts := urls.map (fun u => count_words payload u (fetch u))
  reduceFold merge_counts word_counts scrapeInit

/-- The bookkeeping invariant of the scrape accumulator. -/
def accInv (a : ScrapeAcc) : Prop :=
  a.successful + a.failed = a.sites_processed ∧ a.results.length = a.sites_processed

theorem merge_counts_inv (a : ScrapeAcc) (r : SiteResult) (h : accInv a) :
    accInv (merge_counts a r) := by
  rcases h with ⟨h1, h2⟩
  cases hr : r.success <;>
    simp [accInv, merge_counts, hr, h2] <;> omega

theorem fold_merge_counts_inv (rs : List SiteResult) :
    ∀ (a : ScrapeAcc), accInv a → accInv (reduceFold merge_counts rs a) := by
  induction rs with
  | nil => intro a h; simpa [reduceFold] using h
  | cons r rs ih =>
    intro a h
    simpa [reduceFold] using ih (merge_counts a r) (merge_counts_inv a r h)

/-- C9: every application of `merge_counts` preserves the invariant
`successful + failed = sites_processed` and `results.length = sites_processed`,
and since the initial accumulator satisfies it, the final accumulator of
`scrape_sites` satisfies it for every input list. -/
theorem C9_merge_counts_invariant :
    (∀ (a : ScrapeAcc) (r : SiteResult), accInv a → accInv (merge_counts a r)) ∧
    (∀ (payload : String → CountPayload) (fetch : String → Except String String)
      (urls : List String), accInv (scrape_sites payload fetch urls)) := by
  refine ⟨merge_counts_inv, ?_⟩
  intro payload fetch urls
  exact fold_merge_counts_inv _ scrapeInit ⟨rfl, rfl⟩

theorem C9_merge_counts_invariant_witness :
    accInv (merge_counts scrapeInit
      { url := "u", word_count := 3, unique_words := none, success := false,
        error := some ("e") }) ∧
    accInv (scrape_sites (fun _ => ⟨0, 0⟩) (fun _ => .error ("x")) ["a", "b"]) :=
  ⟨C9_merge_counts_invariant.1 scrapeInit _ ⟨rfl, rfl⟩,
   C9_merge_counts_invariant.2 (fun _ => ⟨0, 0⟩) (fun _ => .error ("x")) ["a", "b"]⟩

/-- C2: the reduce is the sequential left fold of the merge over the mapped
results in original input order starting from the initial accumulator, each
step's output feeding the next step; and for the map-reduce over two inputs
where input 2's fetch fails, the final accumulator has `sites_processed = 2`,
`successful = 1`, `failed = 1`, and its `results` field preserves input order
`[result(input1), result(input2)]`. -/
theorem C2_reduce_fold_scenario (payload : String → CountPayload)
    (fetch : String → Except String String) (u1 u2 html e : String)
    (h1 : fetch u1 = .ok html) (h2 : fetch u2 = .error e) :
    (∀ (rs : List SiteResult) (init : ScrapeAcc),
      reduceFold merge_counts rs init = rs.foldl merge_counts init) ∧
    (∀ (rs : List SiteResult) (r : SiteResult) (init : ScrapeAcc),
      reduceFold merge_counts (rs ++ [r]) init
        = merge_counts (reduceFold merge_counts rs init) r) ∧
    (scrape_sites payload fetch [u1, u2]).sites_processed = 2 ∧
    (scrape_sites payload fetch [u1, u2]).successful = 1 ∧
    (scrape_sites payload fetch [u1, u2]).failed = 1 ∧
    (scrape_sites payload fetch [u1, u2]).results
      = [count_words payload u1 (fetch u1), count_words payload u2 (fetch u2)] := by
  refine ⟨fun rs init => rfl, fun rs r init => by simp [reduceFold], ?_, ?_, ?_, ?_⟩ <;>
    simp [scrape_sites, reduceFold, count_words, merge_counts, scrapeInit, h1, h2]

theorem C2_reduce_fold_scenario_witness :
    (scrape_sites (fun _ => ⟨7, 4⟩)
        (fun u => if u = "a" then .ok ("<html>") else .error ("boom")) ["a", "b"]).successful = 1 ∧
    (scrape_sites (fun _ => ⟨7, 4⟩)
        (fun u => if u = "a" then .ok ("<html>") else .error ("boom")) ["a", "b"]).failed = 1 :=
  ⟨(C2_reduce_fold_scenario (fun _ => ⟨7, 4⟩)
      (fun u => if u = "a" then .ok ("<html>") else .error ("boom")) "a" "b" "<html>" "boom"
      (by simp) (by simp)).2.2.2.1,
   (C2_reduce_fold_scenario (fun _ => ⟨7, 4⟩)
      (fun u => if u = "a" then .ok ("<html>") else .error ("boom")) "a" "b" "<html>" "boom"
      (by simp) (by simp)).2.2.2.2.1⟩

/-- `fetch_file` (src/template-deployer/main.py:195-215).  `world` is the
outcome of `httpx.get(download_url, ...)` followed by `raise_for_status`
(`.error` models any raised exception); the source returns `response.text` on
success and `None` on any exception. -/
def fetch_file (download_url : String) (world : Except String String) : Option String :=
  match world with
  | .ok text => some text
  | .error _ => none

/-- C6: a leaf computation's failure is returned as a tagged data value, never
as an exception crossing the stage boundary: whenever the underlying fetch
raises, `count_words` returns a dict with `success = False`, the exception
message as its error string and `word_count = 0`, and `fetch_file` returns the
non-raising error-marking value `None`. -/
theorem C6_failure_as_data (payload : String → CountPayload) (url u e e2 : String)
    (fetch world : Except String String)
    (hf : fetch = .error e) (hw : world = .error e2) :
    (count_words payload url fetch).success = false ∧
    (count_words payload url fetch).error = some e ∧
    (count_words payload url fetch).word_count = 0 ∧
    fetch_file u world = none := by
  subst hf hw
  exact ⟨rfl, rfl, rfl, rfl⟩

theorem C6_failure_as_data_witness :
    (count_words (fun _ => ⟨0, 0⟩) "https://x.test" (.error ("timed out"))).success = false ∧
    (count_words (fun _ => ⟨0, 0⟩) "https://x.test" (.error ("timed out"))).error
      = some ("timed out") ∧
    (count_words (fun _ => ⟨0, 0⟩) "https://x.test" (.error ("timed out"))).word_count = 0 ∧
    fetch_file ("https://y.test") (.error ("404")) = none :=
  C6_failure_as_data (fun _ => ⟨0, 0⟩) "https://x.test" "https://y.test" "timed out" "404"
    (.error ("timed out")) (.error ("404")) rfl rfl

/-- Dict flowing through the document pipeline (src/document-pipeline/main.py).
A field is `Option` when the corresponding key may be absent from the dict.
The keys carried by the failure path (the except branch of `download`) and the
keys the `summarize` tombstone drops are modelled; the success-path analytics
(`parsed`, `metadata`, ...) live inside the opaque stage bodies. -/
structure Doc where
  url : Option String
  success : Bool
  error : Option String
  stage : Option String
  content : Option String
  content_type : Option String
  size_bytes : Option Nat
  deriving DecidableEq

/-- `parse_content` (src/document-pipeline/main.py:86-141):
`if not doc.get("success"): return doc`; the success branch (html parsing
business logic, out of scope per spec section 1) is the opaque `body`. -/
def parse_content (body : Doc → Doc) (doc : Doc) : Doc :=
  if doc.success then body doc else doc

/-- `enrich` (src/document-pipeline/main.py:145-196):
`if not doc.get("success"): return doc`; the success branch (metadata
computation) is the opaque `body`. -/
def enrich (body : Doc → Doc) (doc : Doc) : Doc :=
  if doc.success then body doc else doc

/-- `summarize` (src/document-pipeline/main.py:200-245): on a failed doc it
returns the reduced dict
`{url: doc.get("url"), success: False, error: doc.get("error", "Previous stage failed")}`,
dropping every other key; the success branch is the opaque `body`. -/
def summarize (body : Doc → Doc) (doc : Doc) : Doc :=
  if doc.success then body doc
  else
    { url := doc.url, success := false,
      error := some (doc.error.getD ("Previous stage failed")),
      stage := none, content := none, content_type := none, size_bytes := none }

/-- A failed doc as produced by `download`'s except branch
(src/document-pipeline/main.py:76-82). -/
def failedDoc : Doc :=
  { url := some ("https://x.test"), success := false, error := some ("boom"),
    stage := some ("download_failed"), content := none, content_type := none,
    size_bytes := none }

/-- C5 as stated is false on the code: `summarize` does not return a failed doc
unchanged; it drops the `stage` key (and every key other than `url`, `success`,
`error`). -/
theorem C5_counterexample : summarize id failedDoc ≠ failedDoc := by
  decide

/-- C5 (amended): downstream stages branch on the success flag;
`parse_content` and `enrich` return a failed doc unchanged, while `summarize`
maps a failed doc to the reduced tombstone
`{url, success: False, error: doc.get("error", "Previous stage failed")}`
that preserves the failure marking but drops the other keys. -/
theorem C5_downstream_tombstone (p e s : Doc → Doc) (doc : Doc)
    (h : doc.success = false) :
    parse_content p doc = doc ∧ enrich e doc = doc ∧
    summarize s doc =
      { url := doc.url, success := false,
        error := some (doc.error.getD ("Previous stage failed")),
        stage := none, content := none, content_type := none, size_bytes := none } := by
  simp [parse_content, enrich, summarize, h]

theorem C5_downstream_tombstone_witness :
    parse_content id failedDoc = failedDoc ∧ enrich id failedDoc = failedDoc ∧
    summarize id failedDoc =
      { url := some ("https://x.test"), success := false, error := some ("boom"),
        stage := none, content := none, content_type := none, size_bytes := none } :=
  C5_downstream_tombstone id id id failedDoc rfl

/-- One attempt's outcome, as reported by the computation to the Invoker
(spec section 7 taxonomy: `transient` counts against the retry budget,
`fatal` covers the non-retryable classes). -/
inductive AttemptOutcome (V E : Type) where
  | ok : V → AttemptOutcome V E
  | transient : E → AttemptOutcome V E
  | fatal : E → AttemptOutcome V E
  deriving DecidableEq

/-- A terminal invocation result (spec section 3). -/
inductive InvokeResult (V E : Type) where
  | succeeded : V → InvokeResult V E
  | failed : E → InvokeResult V E
  deriving DecidableEq

/-- Modelled from the spec: the Invoker retry loop (spec sections 4.2 and 8),
which is not part of the repository sources (the sources only declare retry
policies such as `Retries(max_retries=2)` at src/web-scraper/main.py:48).
`compute n` is attempt number `n`'s outcome; `remaining` is the retry budget
still available.  Returns the terminal result and the total number of
attempts made.  Spec section 8 fixes the attempt accounting: a policy of
`max_attempts = k` allows k retries after the first attempt, k+1 attempts in
total. -/
def invokeFrom (compute : Nat → AttemptOutcome V E) : Nat → Nat → InvokeResult V E × Nat
  | 0, attempt =>
    match compute attempt with
    | .ok v => (.succeeded v, attempt + 1)
    | .fatal e => (.failed e, attempt + 1)
    | .transient e => (.failed e, attempt + 1)
  | r + 1, attempt =>
    match compute attempt with
    | .ok v => (.succeeded v, attempt + 1)
    | .fatal e => (.failed e, attempt + 1)
    | .transient _ => invokeFrom compute r (attempt + 1)

/-- Modelled from the spec: `invoke(definition, input)` under a retry policy
with `max_attempts` retries, starting at attempt 0. -/
def invoke (max_attempts : Nat) (compute : Nat → AttemptOutcome V E) :
    InvokeResult V E × Nat :=
  invokeFrom compute max_attempts 0

theorem invokeFrom_transient {V E : Type} (compute : Nat → AttemptOutcome V E)
    (errs : Nat → E) (h : ∀ n, compute n = .transient (errs n)) :
    ∀ (r a : Nat), invokeFrom compute r a = (.failed (errs (a + r)), a + r + 1) := by
  intro r
  induction r with
  | zero => intro a; simp [invokeFrom, h a]
  | succ r ih =>
    intro a
    have hx : a + 1 + r = a + (r + 1) := by omega
    simp only [invokeFrom, h a]
    rw [ih (a + 1), hx]

/-- C7: an invocation whose computation always reports a transient error and
whose retry policy has `max_attempts = k` reaches terminal `Failed` after
exactly k+1 total attempts — never fewer, never more — and the terminal result
contains the last attempt's error. -/
theorem C7_retry_exhaustion {V E : Type} (k : Nat) (compute : Nat → AttemptOutcome V E)
    (errs : Nat → E) (h : ∀ n, compute n = .transient (errs n)) :
    invoke k compute = (.failed (errs k), k + 1) := by
  simpa using invokeFrom_transient compute errs h k 0

theorem C7_retry_exhaustion_witness :
    invoke 2 (fun _ => (AttemptOutcome.transient ("boom") : AttemptOutcome Unit String))
      = (.failed ("boom"), 3) :=
  C7_retry_exhaustion 2 (fun _ => .transient ("boom")) (fun _ => "boom") (fun _ => rfl)

/-- Modelled from the spec: a started future (spec section 4.3), which is not
part of the repository sources (the sources only call `.awaitable(...).run()`
and `Future.wait`, e.g. src/event-fanout/main.py:53-63 and
src/text-analyzer/main.py:35-42).  The Invoker guarantees every invocation
terminates, so a future is summarised by the time `doneAt` at which it reaches
its terminal state and the recorded terminal `outcome` (a success value or a
terminal error value). -/
structure FutureSim (V : Type) where
  doneAt : Nat
  outcome : V
  deriving DecidableEq

/-- Observable state of a future at a point in simulated time. -/
inductive FutureState (V : Type) where
  | running : FutureState V
  | terminal : V → FutureState V
  deriving DecidableEq

/-- Modelled from the spec: non-blocking state inspection of a future at time
`t`. -/
def stateAt (f : FutureSim V) (t : Nat) : FutureState V :=
  if f.doneAt ≤ t then .terminal f.outcome else .running

/-- Modelled from the spec: the time at which `wait(futures, ALL_COMPLETED)`
returns — once every given future has reached a terminal state. -/
def waitAll (fs : List (FutureSim V)) : Nat :=
  fs.foldl (fun acc f => max acc f.doneAt) 0

/-- Modelled from the spec: the time at which `wait(futures, FIRST_COMPLETED)`
returns — as soon as at least one future is terminal. -/
def waitFirst (fs : List (FutureSim V)) : Nat :=
  match fs with
  | [] => 0
  | f :: rest => rest.foldl (fun acc g => min acc g.doneAt) f.doneAt

theorem foldl_max_le_init {V : Type} (fs : List (FutureSim V)) :
    ∀ (init : Nat), init ≤ fs.foldl (fun acc f => max acc f.doneAt) init := by
  induction fs with
  | nil => intro init; exact Nat.le_refl init
  | cons f rest ih =>
    intro init
    exact Nat.le_trans (Nat.le_max_left init f.doneAt) (ih (max init f.doneAt))

theorem le_waitAll {V : Type} (fs : List (FutureSim V)) :
    ∀ (init : Nat), ∀ f ∈ fs, f.doneAt ≤ fs.foldl (fun acc g => max acc g.doneAt) init := by
  induction fs with
  | nil => intro init f hf; simp at hf
  | cons g rest ih =>
    intro init f hf
    rcases List.mem_cons.mp hf with rfl | hf'
    · exact Nat.le_trans (Nat.le_max_right init f.doneAt) (foldl_max_le_init rest _)
    · exact ih (max init g.doneAt) f hf'

theorem foldl_min_le_init {V : Type} (fs : List (FutureSim V)) :
    ∀ (init : Nat), fs.foldl (fun acc f => min acc f.doneAt) init ≤ init := by
  induction fs with
  | nil => intro init; exact Nat.le_refl init
  | cons f rest ih =>
    intro init
    exact Nat.le_trans (ih (min init f.doneAt)) (Nat.min_le_left init f.doneAt)

theorem foldl_min_le_mem {V : Type} (fs : List (FutureSim V)) :
    ∀ (init : Nat), ∀ f ∈ fs, fs.foldl (fun acc g => min acc g.doneAt) init ≤ f.doneAt := by
  induction fs with
  | nil => intro init f hf; simp at hf
  | cons g rest ih =>
    intro init f hf
    rcases List.mem_cons.mp hf with rfl | hf'
    · exact Nat.le_trans (foldl_min_le_init rest _) (Nat.min_le_right init f.doneAt)
    · exact ih (min init g.doneAt) f hf'

theorem foldl_min_attained {V : Type} (fs : List (FutureSim V)) :
    ∀ (init : Nat), fs.foldl (fun acc g => min acc g.doneAt) init = init ∨
      ∃ f ∈ fs, fs.foldl (fun acc g => min acc g.doneAt) init = f.doneAt := by
  induction fs with
  | nil => intro init; exact Or.inl rfl
  | cons g rest ih =>
    intro init
    rcases ih (min init g.doneAt) with h | ⟨f, hf, h⟩
    · rcases Nat.le_total init g.doneAt with hle | hle
      · refine Or.inl ?_
        rw [List.foldl_cons]
        rw [min_eq_left hle] at h ⊢
        exact h
      · refine Or.inr ⟨g, List.mem_cons_self g rest, ?_⟩
        rw [List.foldl_cons]
        rw [min_eq_right hle] at h ⊢
        exact h
    · exact Or.inr ⟨f, List.mem_cons_of_mem g hf, by rw [List.foldl_cons]; exact h⟩

theorem waitFirst_mem {V : Type} (fs : List (FutureSim V)) (h : fs ≠ []) :
    ∃ f ∈ fs, f.doneAt = waitFirst fs := by
  match fs with
  | [] => exact absurd rfl h
  | g :: rest =>
    rcases foldl_min_attained rest g.doneAt with heq | ⟨f, hf, heq⟩
    · exact ⟨g, List.mem_cons_self g rest, heq.symm⟩
    · exact ⟨f, List.mem_cons_of_mem g hf, heq.symm⟩

theorem waitFirst_le {V : Type} (fs : List (FutureSim V)) :
    ∀ f ∈ fs, waitFirst fs ≤ f.doneAt := by
  match fs with
  | [] => intro f hf; simp at hf
  | g :: rest =>
    intro f hf
    rcases List.mem_cons.mp hf with rfl | hf'
    · exact foldl_min_le_init rest f.doneAt
    · exact foldl_min_le_mem rest g.doneAt f hf'

/-- C8: `wait(futures, ALL_COMPLETED)` never returns while any given future is
non-terminal, so after it returns, `result()` on each waited future yields its
recorded terminal outcome; `wait(futures, FIRST_COMPLETED)` returns as soon as
at least one future is terminal (no earlier, no later) and never cancels the
remaining futures — each still reaches its recorded terminal outcome at its
own completion time. -/
theorem C8_wait_policies {V : Type} (fs : List (FutureSim V)) (h : fs ≠ []) :
    (∀ f ∈ fs, stateAt f (waitAll fs) = .terminal f.outcome) ∧
    (∃ f ∈ fs, stateAt f (waitFirst fs) = .terminal f.outcome) ∧
    (∀ t, (∃ f ∈ fs, f.doneAt ≤ t) → waitFirst fs ≤ t) ∧
    (∀ f ∈ fs, ∀ t, f.doneAt ≤ t → stateAt f t = .terminal f.outcome) := by
  refine ⟨?_, ?_, ?_, ?_⟩
  · intro f hf
    exact if_pos (le_waitAll fs 0 f hf)
  · rcases waitFirst_mem fs h with ⟨f, hf, heq⟩
    exact ⟨f, hf, if_pos (Nat.le_of_eq heq)⟩
  · intro t ⟨f, hf, hft⟩
    exact Nat.le_trans (waitFirst_le fs f hf) hft
  · intro f _ t hft
    exact if_pos hft

theorem C8_wait_policies_witness :
    stateAt ⟨3, 0⟩ (waitAll [(⟨3, 0⟩ : FutureSim Nat), ⟨1, 1⟩]) = .terminal 0 ∧
    waitFirst [(⟨3, 0⟩ : FutureSim Nat), ⟨1, 1⟩] ≤ 1 :=
  ⟨(C8_wait_policies [⟨3, 0⟩, ⟨1, 1⟩] (by simp)).1 ⟨3, 0⟩ (by simp),
   (C8_wait_policies [⟨3, 0⟩, ⟨1, 1⟩] (by simp)).2.2.1 1 ⟨⟨1, 1⟩, by simp, Nat.le_refl 1⟩⟩

/-- The parts of `broadcast_event`'s return dict that the aggregate-status
claim is about (src/event-fanout/main.py:78-89). -/
structure BroadcastOut where
  overall_status : String
  total_channels : Nat
  successful : Nat
  failed : Nat
  deriving DecidableEq

/-- The aggregation section of `broadcast_event`
(src/event-fanout/main.py:66-89).  The four arguments are the
`r.get("status")` values of the four channel results as collected through
`safe_get_result` (the terminal states of the direct fan-out children);
`event_id`/`broadcast_at` depend on the wall clock and are out of scope. -/
def broadcast_event (logS webhookS auditS metricsS : Option String) : BroadcastOut :=
  let statuses := [logS, webhookS, auditS, metricsS]
  let all_success := statuses.all (fun s => s == some ("success"))
  let any_success := statuses.any (fun s => s == some ("success"))
  { overall_status :=
      if all_success then ("success") else if any_success then ("partial") else ("failed"),
    total_channels := statuses.length,
    successful := statuses.countP (fun s => s == some ("success")),
    failed := statuses.countP (fun s => !(s == some ("success"))) }

/-- C3: the overall pipeline result reports an aggregate status computed from
the terminal states of its direct fan-out children — all succeeded gives
`success`, mixed gives `partial`, all failed gives `failed` — and a broadcast
to 4 channels where exactly one channel fails and the other 3 succeed yields
aggregate status `partial` with `successful = 3` and `failed = 1`. -/
theorem C3_broadcast_status (l w a m : Option String) :
    ((∀ s ∈ [l, w, a, m], s = some ("success")) →
      (broadcast_event l w a m).overall_status = "success") ∧
    ((∀ s ∈ [l, w, a, m], s ≠ some ("success")) →
      (broadcast_event l w a m).overall_status = "failed") ∧
    (((∃ s ∈ [l, w, a, m], s = some ("success")) ∧ (∃ s ∈ [l, w, a, m], s ≠ some ("success"))) →
      (broadcast_event l w a m).overall_status = "partial") ∧
    (([l, w, a, m].countP (fun s => s == some ("success")) = 3) →
      (broadcast_event l w a m).overall_status = "partial" ∧
      (broadcast_event l w a m).successful = 3 ∧
      (broadcast_event l w a m).failed = 1 ∧
      (broadcast_event l w a m).total_channels = 4) := by
  by_cases hl : l = some ("success") <;> by_cases hw : w = some ("success") <;>
    by_cases ha : a = some ("success") <;> by_cases hm : m = some ("success") <;>
    refine ⟨?_, ?_, ?_, ?_⟩ <;>
    intro hyp <;>
    simp_all [broadcast_event, List.countP_cons, beq_iff_eq] <;>
    rcases hyp with h | h | h | h <;> simp_all

theorem C3_broadcast_status_witness :
    (broadcast_event (some ("success")) (some ("error")) (some ("success"))
        (some ("success"))).overall_status = "partial" ∧
    (broadcast_event (some ("success")) (some ("error")) (some ("success"))
        (some ("success"))).successful = 3 ∧
    (broadcast_event (some ("success")) (some ("error")) (some ("success"))
        (some ("success"))).failed = 1 ∧
    (broadcast_event (some ("success")) (some ("error")) (some ("success"))
        (some ("success"))).total_channels = 4 :=
  (C3_broadcast_status (some ("success")) (some ("error")) (some ("success"))
    (some ("success"))).2.2.2 (by decide)

/-- Files excluded from the deployment package
(src/template-deployer/main.py:26). -/
def EXCLUDED_FILES : List String :=
  ["README.md", "README", ".gitignore", "LICENSE", "__pycache__"]

/-- `DeployRequest` (src/template-deployer/main.py:29-36). -/
structure DeployRequest where
  template_id : String
  target_namespace : String
  app_name : String
  github_repo : String
  github_branch : String
  deriving DecidableEq

/-- `DeployResult` (src/template-deployer/main.py:39-46). -/
structure DeployResult where
  success : Bool
  app_name : Option String
  error : Option String
  invoke_url : Option String
  files_deployed : List String
  deriving DecidableEq

/-- `FileToFetch` (src/template-deployer/main.py:49-53). -/
structure FileToFetch where
  name : String
  download_url : String
  deriving DecidableEq

/-- One entry of the GitHub Contents API directory listing — the keys
`discover_template_files` reads. -/
structure GhItem where
  name : String
  download_url : String
  type : String
  deriving DecidableEq

/-- The parsed JSON body of the GitHub Contents API response: a dict when the
requested path is a single file, a list of items when it is a directory. -/
inductive GhBody where
  | file : GhBody
  | dir : List GhItem → GhBody
  deriving DecidableEq

/-- Outcome of `httpx.get` on the GitHub Contents API inside
`discover_template_files`: a timeout (`httpx.TimeoutException`), any other
raised exception with message `msg` (caught by the final `except Exception`),
or a response with a status code, body text and parsed JSON body. -/
inductive GhFetch where
  | timedOut : GhFetch
  | raised : String → GhFetch
  | resp : Nat → String → GhBody → GhFetch
  deriving DecidableEq

/-- Python's `pat in s` substring test. -/
def strContains (s pat : String) : Bool :=
  (List.range (s.toList.length + 1)).any (fun i => pat.toList.isPrefixOf (s.toList.drop i))

/-- The dict returned by `discover_template_files`: it carries a `files` key or
an `error` key; `Option` marks key absence. -/
structure DiscoverOut where
  files : Option (List FileToFetch)
  error : Option String
  deriving DecidableEq

/-- Message of the `httpx.HTTPStatusError` that `response.raise_for_status()`
raises for an unhandled 4xx/5xx status.  Its exact wording comes from httpx and
is opaque; the source wraps it in the `GitHub API error: ` prefix, which is
what the error taxonomy depends on. -/
def httpStatusText (status : Nat) : String :=
  "HTTP status " ++ toString status

/-- f-string `Template '{template_id}' not found in {repo}@{branch}`
(src/template-deployer/main.py:158). -/
def errNotFound (repo branch template_id : String) : String :=
  "Template \x27" ++ (template_id ++ ("\x27 not found in " ++ (repo ++ ("@" ++ branch))))

/-- Rate-limit message (src/template-deployer/main.py:163). -/
def errRateLimit : String := "GitHub API rate limit exceeded. Try again later."

/-- f-string `GitHub API access denied: {response.text}`
(src/template-deployer/main.py:164). -/
def errDenied (text : String) : String := "GitHub API access denied: " ++ text

/-- Timeout message (src/template-deployer/main.py:189). -/
def errTimeout : String := "GitHub API request timed out"

/-- f-string `'{template_id}' is a file, not a template directory`
(src/template-deployer/main.py:172). -/
def errIsFile (template_id : String) : String :=
  "\x27" ++ (template_id ++ "\x27 is a file, not a template directory")

/-- f-string `GitHub API error: {str(e)}` (src/template-deployer/main.py:191). -/
def errApi (msg : String) : String := "GitHub API error: " ++ msg

/-- The response-handling part of `discover_template_files`
(src/template-deployer/main.py:157-186): the status checks, the
`raise_for_status` raise for remaining 4xx/5xx (whose exception the final
`except` turns into a `GitHub API error: ` message), and the body handling. -/
def discoverResp (repo branch template_id : String) (status : Nat) (text : String)
    (body : GhBody) : DiscoverOut :=
  if status = 404 then
      { files := none, error := some (errNotFound repo branch template_id) }
    else if status = 403 then
      if strContains text.toLower ("rate limit") then
        { files := none, error := some errRateLimit }
      else
        { files := none, error := some (errDenied text) }
    else if 400 ≤ status then
      { files := none, error := some (errApi (httpStatusText status)) }
    else
      match body with
      | .file => { files := none, error := some (errIsFile template_id) }
      | .dir items =>
        { files := some (items.filterMap (fun item =>
            if item.type = "file" ∧ item.name ∉ EXCLUDED_FILES
                ∧ ¬ item.name.startsWith (".") then
              some { name := item.name, download_url := item.download_url }
            else none)),
          error := none }

/-- `discover_template_files` (src/template-deployer/main.py:138-191). -/
def discover_template_files (repo branch template_id : String) (gh : GhFetch) :
    DiscoverOut :=
  match gh with
  | .timedOut => { files := none, error := some errTimeout }
  | .raised msg => { files := none, error := some (errApi msg) }
  | .resp status text body => discoverResp repo branch template_id status text body

/-- The dict returned by `generate_manifest`
(src/template-deployer/main.py:219-275); the SDK manifest generation is an
external collaborator, so its outcome enters `deploy_template` as a
parameter. -/
structure ManifestOut where
  manifest_json : Option String
  error : Option String
  deriving DecidableEq

/-- The dict returned by `deploy_to_namespace`
(src/template-deployer/main.py:279-306); the Tensorlake API call is external,
so its outcome enters `deploy_template` as a parameter. -/
structure NsOut where
  success : Bool
  error : Option String
  deriving DecidableEq

/-- Python truthiness of `d.get("error")`: the error branch is taken exactly
for a present, non-empty error string. -/
def errTruthy (e : Option String) : Bool :=
  match e with
  | none => false
  | some s => !(s == "")

/-- The files-dictionary loop of `deploy_template`
(src/template-deployer/main.py:102-109): walks `zip(files_to_fetch,
file_contents)` and aborts with the file's name on the first `None` content.
The insertion-ordered Python dict is modelled as the association list of its
insertions. -/
def buildFiles : List FileToFetch → List (Option String) →
    Except String (List (String × String))
  | [], _ => .ok []
  | _ :: _, [] => .ok []
  | f :: fs, c :: cs =>
    match c with
    | none => .error f.name
    | some content =>
      match buildFiles fs cs with
      | .error n => .error n
      | .ok rest => .ok ((f.name, content) :: rest)

/-- `files[key]` on the insertion list of a Python dict: a later insertion of
the same key overwrites an earlier one, so the last binding wins. -/
def dictGet (files : List (String × String)) (key : String) : Option String :=
  files.reverse.lookup key

/-- `deploy_template` (src/template-deployer/main.py:58-134).  External
collaborators are parameters: `gh` is the GitHub Contents API outcome consumed
by `discover_template_files`; `worlds` gives each download url's raw-fetch
outcome for the `fetch_file.map` fan-out; `manifestOf` is the outcome of
`generate_manifest` on (main.py content, app name); `deployNs` the outcome of
`deploy_to_namespace` on (manifest json, zip entries, namespace), with
`create_zip` modelled as the list of file entries it archives.  The result is
`none` when an unguarded dict access in the source would raise a `KeyError`
(unreachable for the outputs `discover_template_files` and `generate_manifest`
actually produce). -/
def deploy_template (request : DeployRequest) (gh : GhFetch)
    (worlds : String → Except String String)
    (manifestOf : String → String → ManifestOut)
    (deployNs : String → List (String × String) → String → NsOut) :
    Option DeployResult :=
  let discovery := discover_template_files request.github_repo request.github_branch
    request.template_id gh
  if errTruthy discovery.error then
    some { success := false, app_name := none, error := discovery.error,
           invoke_url := none, files_deployed := [] }
  else
    match discovery.files with
    | none => none
    | some files_to_fetch =>
      if files_to_fetch.isEmpty then
        some { success := false, app_name := none,
               error := some ("Template \x27" ++ (request.template_id
                 ++ "\x27 is empty or not found")),
               invoke_url := none, files_deployed := [] }
      else if ¬ files_to_fetch.any (fun f => f.name == "main.py") then
        some { success := false, app_name := none,
               error := some ("Template \x27" ++ (request.template_id
                 ++ "\x27 is missing main.py")),
               invoke_url := none, files_deployed := [] }
      else
        let download_urls := files_to_fetch.map (fun f => f.download_url)
        let file_contents := download_urls.map (fun u => fetch_file u (worlds u))
        match buildFiles files_to_fetch file_contents with
        | .error name =>
          some { success := false, app_name := none,
                 error := some ("Failed to download " ++ name),
                 invoke_url := none, files_deployed := [] }
        | .ok files =>
          match dictGet files ("main.py") with
          | none => none
          | some main_py =>
            let manifest_result := manifestOf main_py request.app_name
            if errTruthy manifest_result.error then
              some { success := false, app_name := none,
                     error := manifest_result.error,
                     invoke_url := none, files_deployed := [] }
            else
              match manifest_result.manifest_json with
              | none => none
              | some manifest_json =>
                let deploy_result := deployNs manifest_json files
                  request.target_namespace
                if ¬ deploy_result.success then
                  some { success := false, app_name := none,
                         error := deploy_result.error,
                         invoke_url := none, files_deployed := [] }
                else
                  some { success := true, app_name := some request.app_name,
                         error := none,
                         invoke_url := some ("https://api.tensorlake.ai/v1/namespaces/"
                           ++ (request.target_namespace ++ ("/applications/"
                           ++ (request.app_name ++ "/invoke")))),
                         files_deployed := files.map (fun p => p.1) }

theorem ne_of_data_get (s t : String) (i : Nat) (h : s.data[i]? ≠ t.data[i]?) :
    s ≠ t :=
  fun he => h (by rw [he])

theorem data_get_append (p t : String) (i : Nat) (h : (p.data[i]?).isSome) :
    (p ++ t).data[i]? = p.data[i]? := by
  rw [Option.isSome_iff_exists] at h
  rcases h with ⟨v, hv⟩
  rw [String.data_append]
  exact List.getElem?_append_left (List.getElem?_eq_some.mp hv).1

theorem errNotFound_get (repo branch template_id : String) (i : Nat)
    (h : ("Template \x27".data[i]?).isSome) :
    (errNotFound repo branch template_id).data[i]? = "Template \x27".data[i]? := by
  unfold errNotFound
  exact data_get_append _ _ i h

theorem errDenied_get (text : String) (i : Nat)
    (h : ("GitHub API access denied: ".data[i]?).isSome) :
    (errDenied text).data[i]? = "GitHub API access denied: ".data[i]? := by
  unfold errDenied
  exact data_get_append _ _ i h

theorem errIsFile_get (template_id : String) (i : Nat)
    (h : ("\x27".data[i]?).isSome) :
    (errIsFile template_id).data[i]? = "\x27".data[i]? := by
  unfold errIsFile
  exact data_get_append _ _ i h

theorem errApi_get (msg : String) (i : Nat)
    (h : ("GitHub API error: ".data[i]?).isSome) :
    (errApi msg).data[i]? = "GitHub API error: ".data[i]? := by
  unfold errApi
  exact data_get_append _ _ i h

theorem errMessages_distinct (repo branch template_id text msg : String) :
    errNotFound repo branch template_id ≠ errRateLimit ∧
    errNotFound repo branch template_id ≠ errDenied text ∧
    errNotFound repo branch template_id ≠ errTimeout ∧
    errNotFound repo branch template_id ≠ errIsFile template_id ∧
    errNotFound repo branch template_id ≠ errApi msg ∧
    errRateLimit ≠ errDenied text ∧
    errRateLimit ≠ errTimeout ∧
    errRateLimit ≠ errIsFile template_id ∧
    errRateLimit ≠ errApi msg ∧
    errDenied text ≠ errTimeout ∧
    errDenied text ≠ errIsFile template_id ∧
    errDenied text ≠ errApi msg ∧
    errTimeout ≠ errIsFile template_id ∧
    errTimeout ≠ errApi msg ∧
    errIsFile template_id ≠ errApi msg := by
  refine ⟨?_, ?_, ?_, ?_, ?_, ?_, ?_, ?_, ?_, ?_, ?_, ?_, ?_, ?_, ?_⟩
  · exact ne_of_data_get _ _ 0 (by rw [errNotFound_get _ _ _ 0 (by decide)]; decide)
  · exact ne_of_data_get _ _ 0
      (by rw [errNotFound_get _ _ _ 0 (by decide), errDenied_get _ 0 (by decide)]; decide)
  · exact ne_of_data_get _ _ 0 (by rw [errNotFound_get _ _ _ 0 (by decide)]; decide)
  · exact ne_of_data_get _ _ 0
      (by rw [errNotFound_get _ _ _ 0 (by decide), errIsFile_get _ 0 (by decide)]; decide)
  · exact ne_of_data_get _ _ 0
      (by rw [errNotFound_get _ _ _ 0 (by decide), errApi_get _ 0 (by decide)]; decide)
  · exact ne_of_data_get _ _ 11 (by rw [errDenied_get _ 11 (by decide)]; decide)
  · exact ne_of_data_get _ _ 12 (by decide)
  · exact ne_of_data_get _ _ 0 (by rw [errIsFile_get _ 0 (by decide)]; decide)
  · exact ne_of_data_get _ _ 11 (by rw [errApi_get _ 11 (by decide)]; decide)
  · exact ne_of_data_get _ _ 11 (by rw [errDenied_get _ 11 (by decide)]; decide)
  · exact ne_of_data_get _ _ 0
      (by rw [errDenied_get _ 0 (by decide), errIsFile_get _ 0 (by decide)]; decide)
  · exact ne_of_data_get _ _ 11
      (by rw [errDenied_get _ 11 (by decide), errApi_get _ 11 (by decide)]; decide)
  · exact ne_of_data_get _ _ 0 (by rw [errIsFile_get _ 0 (by decide)]; decide)
  · exact ne_of_data_get _ _ 11 (by rw [errApi_get _ 11 (by decide)]; decide)
  · exact ne_of_data_get _ _ 0
      (by rw [errIsFile_get _ 0 (by decide), errApi_get _ 0 (by decide)]; decide)

theorem errNotFound_ne_empty (repo branch template_id : String) :
    errNotFound repo branch template_id ≠ "" :=
  ne_of_data_get _ _ 0 (by rw [errNotFound_get _ _ _ 0 (by decide)]; decide)

theorem errDenied_ne_empty (text : String) : errDenied text ≠ "" :=
  ne_of_data_get _ _ 0 (by rw [errDenied_get _ 0 (by decide)]; decide)

theorem errIsFile_ne_empty (template_id : String) : errIsFile template_id ≠ "" :=
  ne_of_data_get _ _ 0 (by rw [errIsFile_get _ 0 (by decide)]; decide)

theorem errApi_ne_empty (msg : String) : errApi msg ≠ "" :=
  ne_of_data_get _ _ 0 (by rw [errApi_get _ 0 (by decide)]; decide)

theorem discover_shape (repo branch template_id : String) (gh : GhFetch) :
    (∃ fs, discover_template_files repo branch template_id gh
        = { files := some fs, error := none }) ∨
    (∃ e, discover_template_files repo branch template_id gh
        = { files := none, error := some e } ∧ e ≠ "") := by
  cases gh with
  | timedOut => exact Or.inr ⟨errTimeout, rfl, by decide⟩
  | raised msg => exact Or.inr ⟨errApi msg, rfl, errApi_ne_empty msg⟩
  | resp status text body =>
    show (∃ fs, discoverResp repo branch template_id status text body
        = { files := some fs, error := none }) ∨
      (∃ e, discoverResp repo branch template_id status text body
        = { files := none, error := some e } ∧ e ≠ "")
    unfold discoverResp
    by_cases h404 : status = 404
    · rw [if_pos h404]
      exact Or.inr ⟨errNotFound repo branch template_id, rfl,
        errNotFound_ne_empty repo branch template_id⟩
    · rw [if_neg h404]
      by_cases h403 : status = 403
      · rw [if_pos h403]
        cases hrl : strContains text.toLower ("rate limit") with
        | true =>
          rw [if_pos rfl]
          exact Or.inr ⟨errRateLimit, rfl, by decide⟩
        | false =>
          rw [if_neg (by simp)]
          exact Or.inr ⟨errDenied text, rfl, errDenied_ne_empty text⟩
      · rw [if_neg h403]
        by_cases h400 : 400 ≤ status
        · rw [if_pos h400]
          exact Or.inr ⟨errApi (httpStatusText status), rfl,
            errApi_ne_empty (httpStatusText status)⟩
        · rw [if_neg h400]
          cases body with
          | file => exact Or.inr ⟨errIsFile template_id, rfl,
              errIsFile_ne_empty template_id⟩
          | dir items => exact Or.inl ⟨_, rfl⟩

theorem deploy_template_error (request : DeployRequest) (gh : GhFetch)
    (worlds : String → Except String String)
    (manifestOf : String → String → ManifestOut)
    (deployNs : String → List (String × String) → String → NsOut) (e : String)
    (he : (discover_template_files request.github_repo request.github_branch
      request.template_id gh).error = some e) :
    deploy_template request gh worlds manifestOf deployNs
      = some { success := false, app_name := none, error := some e,
               invoke_url := none, files_deployed := [] } ∧ e ≠ "" := by
  have hsh := discover_shape request.github_repo request.github_branch
    request.template_id gh
  rcases hsh with ⟨fs, hfs⟩ | ⟨e2, he2, hne2⟩
  · rw [hfs] at he; simp at he
  · rw [he2] at he
    have : e2 = e := by simpa using he
    subst this
    constructor
    · have ht : errTruthy (discover_template_files request.github_repo
          request.github_branch request.template_id gh).error = true := by
        rw [he2]
        simp [errTruthy, hne2]
      simp only [deploy_template, ht, if_true]
      rw [he2]
    · exact hne2

/-- C10: `discover_template_files` is total at its public interface — for every
repo, branch, template id and fetch outcome it returns a dict holding either a
`files` list or a non-empty `error` string, with no exception escaping (HTTP
404, rate-limited and other HTTP 403, timeout, a file-instead-of-directory
path, and any other raised exception each yield a distinct error value) — and
`deploy_template` converts each such discovery error into a `DeployResult`
with `success = False` and that non-empty error message. -/
theorem C10_discover_total (repo branch template_id text msg : String)
    (request : DeployRequest) (gh gh2 : GhFetch)
    (worlds : String → Except String String)
    (manifestOf : String → String → ManifestOut)
    (deployNs : String → List (String × String) → String → NsOut) (e : String)
    (he : (discover_template_files request.github_repo request.github_branch
      request.template_id gh2).error = some e) :
    ((∃ fs, discover_template_files repo branch template_id gh
        = { files := some fs, error := none }) ∨
     (∃ e0, discover_template_files repo branch template_id gh
        = { files := none, error := some e0 } ∧ e0 ≠ "")) ∧
    (errNotFound repo branch template_id ≠ errRateLimit ∧
     errNotFound repo branch template_id ≠ errDenied text ∧
     errNotFound repo branch template_id ≠ errTimeout ∧
     errNotFound repo branch template_id ≠ errIsFile template_id ∧
     errNotFound repo branch template_id ≠ errApi msg ∧
     errRateLimit ≠ errDenied text ∧
     errRateLimit ≠ errTimeout ∧
     errRateLimit ≠ errIsFile template_id ∧
     errRateLimit ≠ errApi msg ∧
     errDenied text ≠ errTimeout ∧
     errDenied text ≠ errIsFile template_id ∧
     errDenied text ≠ errApi msg ∧
     errTimeout ≠ errIsFile template_id ∧
     errTimeout ≠ errApi msg ∧
     errIsFile template_id ≠ errApi msg) ∧
    (deploy_template request gh2 worlds manifestOf deployNs
      = some { success := false, app_name := none, error := some e,
               invoke_url := none, files_deployed := [] } ∧ e ≠ "") :=
  ⟨discover_shape repo branch template_id gh,
   errMessages_distinct repo branch template_id text msg,
   deploy_template_error request gh2 worlds manifestOf deployNs e he⟩

theorem C10_discover_total_witness :
    deploy_template
      { template_id := "web-scraper", target_namespace := "ns", app_name := "app",
        github_repo := "tensorlakeai/examples", github_branch := "main" }
      .timedOut (fun _ => .error ("down")) (fun _ _ => ⟨none, some ("no functions")⟩)
      (fun _ _ _ => ⟨false, some ("unreachable")⟩)
      = some { success := false, app_name := none,
               error := some ("GitHub API request timed out"),
               invoke_url := none, files_deployed := [] } ∧
    "GitHub API request timed out" ≠ "" :=
  (C10_discover_total ("tensorlakeai/examples") "main" "web-scraper" "text" "msg"
    { template_id := "web-scraper", target_namespace := "ns", app_name := "app",
      github_repo := "tensorlakeai/examples", github_branch := "main" }
    .timedOut .timedOut (fun _ => .error ("down")) (fun _ _ => ⟨none, some ("no functions")⟩)
    (fun _ _ _ => ⟨false, some ("unreachable")⟩) "GitHub API request timed out" rfl).2.2

end Examples
